import Mathlib

/-!
Verification of the dual-reference lifecycle protocol of
`experimental/graphite/src/Resource.h` (class `skgpu::Resource`).

The header declares two atomic reference counters (`fUsageRefCnt`,
`fCommandBufferRefCnt`), a per-entry mutex `fUnrefMutex` guarding every
decrement-and-arbitrate path, and a debug-only flag
`fCalledRemovedFromCache`.  Each of `unref`, `unrefCommandBuffer` and
`removedFromCache` runs its whole decrement / flag-update / arbitration
inside the mutex, so in any concurrent execution those critical sections
are totally ordered; we therefore model a concurrent execution as a list
of atomic operations applied in sequence.  The relaxed-ordering
increments (`ref`, `refCommandBuffer`, `refCacheOnly`) are single atomic
`fetch_add`s and are likewise single steps.  `internalDispose` runs
outside the mutex, but it only clears `fGpu` and bumps the
dispose-event count, which no counter operation reads, so fusing it with
the critical section that designated it preserves all observable counter
and flag behaviour.

Machine integers: the counters are `std::atomic<int32_t>`; we model them
as unbounded `Int` (the protocol keeps them within the number of live
holders, far below 2^31, and no claim concerns wrap-around).
`fTimestamp` is `uint32_t`, modelled as `Nat`; `GraphiteResourceKey` is
an opaque identity value, modelled as `Nat`; the `const Gpu*` back
pointer is modelled by the Boolean `fGpuPresent` (`fGpu != nullptr`).

Assertions: we model a debug build (`SkASSERT` active, `SkDEBUGCODE`
compiled in).  An operation whose `SkASSERT` fails returns `none`;
otherwise it returns `some` of the updated state.
-/

namespace Skgpu

/-- The `LastRemovedRef` enum from `ResourceTypes.h`: which kind of
reference just reached zero, passed to `notifyARefIsZero`. -/
inductive LastRemovedRef where
  | kUsageRef
  | kCommandBufferRef
  | kCache
deriving DecidableEq, Repr

/-- State of one `skgpu::Resource`.  `fFreeGpuDataCalls` counts how
often the native-release path (`internalDispose`, which invokes the
backend `freeGpuData` callback) has run; it is the event counter the
"fires exactly once" claims are about. -/
structure Resource where
  fUsageRefCnt : Int
  fCommandBufferRefCnt : Int
  fCalledRemovedFromCache : Bool
  fGpuPresent : Bool
  fKey : Nat
  fCacheArrayIndex : Int
  fTimestamp : Nat
  fFreeGpuDataCalls : Nat
deriving DecidableEq, Repr

namespace Resource

/-- `Resource::hasUsageRef`: `if (0 == fUsageRefCnt.load()) return false; return true;` -/
def hasUsageRef (r : Resource) : Bool :=
  if r.fUsageRefCnt == 0 then false else true

/-- `Resource::hasCommandBufferRef`. -/
def hasCommandBufferRef (r : Resource) : Bool :=
  if r.fCommandBufferRefCnt == 0 then false else true

/-- `Resource::hasAnyRefs`: `hasUsageRef() || hasCommandBufferRef()`. -/
def hasAnyRefs (r : Resource) : Bool :=
  hasUsageRef r || hasCommandBufferRef r

/-- Modelled from the spec: `Resource::notifyARefIsZero` is only
declared in `Resource.h`; its body lives in `Resource.cpp`, which is not
part of this tree.  Per the spec (section 4.1, `notifyZero`): invoked
under the disposal-coordination lock whenever a release observes its
counter reached zero; it "checks whether the other counter is also
zero" and "returns whether the caller is responsible for running
teardown" — i.e. the caller is responsible exactly when, after its own
decrement, no usage and no command-buffer reference remains
(`!hasAnyRefs()`).  The release paths (sections 4.1 and 8, scenarios 6
and 7) make teardown fire precisely when the second counter reaches
zero, independent of the removed-from-cache flag. -/
def notifyARefIsZero (r : Resource) (_removedRef : LastRemovedRef) : Bool :=
  !(hasAnyRefs r)

/-- Modelled from the spec: `Resource::internalDispose` is only declared
in `Resource.h`.  Per the spec (section 4.3) it invokes the
backend-specific `freeGpuData` callback exactly once and then destroys
the entry; per the header comment on `fGpu`, it sets `fGpu` to
`nullptr` before the `Gpu` object is destroyed.  We record the callback
invocation by incrementing `fFreeGpuDataCalls`. -/
def internalDispose (r : Resource) : Resource :=
  { r with fGpuPresent := false, fFreeGpuDataCalls := r.fFreeGpuDataCalls + 1 }

/-- `Resource::wasDestroyed`: `return fGpu == nullptr;` -/
def wasDestroyed (r : Resource) : Bool :=
  !r.fGpuPresent

/-- `Resource::ref`: `SkASSERT(this->hasUsageRef());` then a relaxed
`fUsageRefCnt.fetch_add(+1)`.  The failed assertion is modelled as
`none`. -/
def ref (r : Resource) : Option Resource :=
  if hasUsageRef r then
    some { r with fUsageRefCnt := r.fUsageRefCnt + 1 }
  else
    none

/-- `Resource::unref`: under `fUnrefMutex`, `SkASSERT(hasUsageRef())`,
then `fetch_add(-1)`; if the pre-decrement value was `1`, asks
`notifyARefIsZero(kUsageRef)` whether this caller must free; if so,
`internalDispose()` runs after the lock is dropped. -/
def unref (r : Resource) : Option Resource :=
  if hasUsageRef r then
    let prev := r.fUsageRefCnt
    let r1 := { r with fUsageRefCnt := prev - 1 }
    if prev == 1 then
      if notifyARefIsZero r1 LastRemovedRef.kUsageRef then
        some (internalDispose r1)
      else
        some r1
    else
      some r1
  else
    none

/-- `Resource::refCommandBuffer`: a relaxed
`fCommandBufferRefCnt.fetch_add(+1)` with no assertion — it never
fails, so it returns `Resource` rather than `Option Resource`. -/
def refCommandBuffer (r : Resource) : Resource :=
  { r with fCommandBufferRefCnt := r.fCommandBufferRefCnt + 1 }

/-- `Resource::unrefCommandBuffer`: under `fUnrefMutex`,
`SkASSERT(hasCommandBufferRef())`, then `fetch_add(-1)`; if the
pre-decrement value was `1`, asks `notifyARefIsZero(kCommandBufferRef)`
whether this caller must free. -/
def unrefCommandBuffer (r : Resource) : Option Resource :=
  if hasCommandBufferRef r then
    let prev := r.fCommandBufferRefCnt
    let r1 := { r with fCommandBufferRefCnt := prev - 1 }
    if prev == 1 then
      if notifyARefIsZero r1 LastRemovedRef.kCommandBufferRef then
        some (internalDispose r1)
      else
        some r1
    else
      some r1
  else
    none

/-- `Resource::refCacheOnly`: `SkASSERT(fUsageRefCnt >= 0);` then a
relaxed `fUsageRefCnt.fetch_add(+1)` — unlike `ref`, it is permitted
when the usage count is zero. -/
def refCacheOnly (r : Resource) : Option Resource :=
  if r.fUsageRefCnt ≥ 0 then
    some { r with fUsageRefCnt := r.fUsageRefCnt + 1 }
  else
    none

/-- Modelled from the spec: `Resource::isPurgeable` is only declared in
`Resource.h`.  Per the spec (section 4.2): "true iff `usageCount == 0`
(an entry with zero usage holders but a nonzero executor count is still
alive but purgeable)" — expressed through the header's `hasUsageRef`. -/
def isPurgeable (r : Resource) : Bool :=
  !(hasUsageRef r)

/-- `Resource::removedFromCache`: under `fUnrefMutex`,
`SkASSERT(!fCalledRemovedFromCache)`, `SkDEBUGCODE(fCalledRemovedFromCache
= true)`, then asks `notifyARefIsZero(kCache)` whether this caller must
free. -/
def removedFromCache (r : Resource) : Option Resource :=
  if r.fCalledRemovedFromCache then
    none
  else
    let r1 := { r with fCalledRemovedFromCache := true }
    if notifyARefIsZero r1 LastRemovedRef.kCache then
      some (internalDispose r1)
    else
      some r1

/-- `Resource::key`: `return fKey;` -/
def key (r : Resource) : Nat :=
  r.fKey

/-- `Resource::setKey`: `fKey = key;` -/
def setKey (r : Resource) (k : Nat) : Resource :=
  { r with fKey := k }

/-- `Resource::timestamp`: `return fTimestamp;` -/
def timestamp (r : Resource) : Nat :=
  r.fTimestamp

/-- `Resource::setTimestamp`: `fTimestamp = ts;` -/
def setTimestamp (r : Resource) (ts : Nat) : Resource :=
  { r with fTimestamp := ts }

/-- `Resource::accessCacheIndex` hands the cache a mutable pointer to
`fCacheArrayIndex`; we model the cache-side write through it. -/
def setCacheIndex (r : Resource) (i : Int) : Resource :=
  { r with fCacheArrayIndex := i }

/-- Modelled from the spec: the constructor `Resource(const Gpu*)` is
only declared in `Resource.h`.  Per the spec (section 3, Lifecycle):
"created with `usageCount = 0`", executor count likewise zero, native
payload constructed (`fGpu` set), no teardown yet, removed-from-cache
flag clear. -/
def mkResource (k : Nat) : Resource :=
  { fUsageRefCnt := 0
    fCommandBufferRefCnt := 0
    fCalledRemovedFromCache := false
    fGpuPresent := true
    fKey := k
    fCacheArrayIndex := 0
    fTimestamp := 0
    fFreeGpuDataCalls := 0 }

end Resource

/-- The entry-side reference-lifecycle operations, one constructor per
member function that mutates the reference state. -/
inductive Op where
  | opRef
  | opUnref
  | opRefCommandBuffer
  | opUnrefCommandBuffer
  | opRefCacheOnly
  | opRemovedFromCache
deriving DecidableEq, Repr

/-- One atomic step of the protocol: the mutex-guarded body of the
operation (plus, for a designated caller, the `internalDispose` that
follows it). `none` means the operation's `SkASSERT` failed. -/
def step (r : Resource) : Op → Option Resource
  | Op.opRef => Resource.ref r
  | Op.opUnref => Resource.unref r
  | Op.opRefCommandBuffer => some (Resource.refCommandBuffer r)
  | Op.opUnrefCommandBuffer => Resource.unrefCommandBuffer r
  | Op.opRefCacheOnly => Resource.refCacheOnly r
  | Op.opRemovedFromCache => Resource.removedFromCache r

/-- Run a sequence of operations; `none` as soon as one asserts. -/
def run (r : Resource) : List Op → Option Resource
  | [] => some r
  | op :: l =>
    match step r op with
    | none => none
    | some r1 => run r1 l

end Skgpu

namespace Skgpu

/-! ## Helper lemmas -/

/-- Closed form of `unref` on a state with a positive usage count: the
decrement always happens, and `internalDispose` runs exactly when the
decrement takes the usage count to zero while the command-buffer count
is already zero. -/
theorem unref_eq_of_pos (r : Resource) (h : 1 ≤ r.fUsageRefCnt) :
    Resource.unref r =
      if r.fUsageRefCnt = 1 ∧ r.fCommandBufferRefCnt = 0 then
        some (Resource.internalDispose
          { r with fUsageRefCnt := r.fUsageRefCnt - 1 })
      else
        some { r with fUsageRefCnt := r.fUsageRefCnt - 1 } := by
  have h0 : r.fUsageRefCnt ≠ 0 := by omega
  by_cases h1 : r.fUsageRefCnt = 1
  · by_cases h2 : r.fCommandBufferRefCnt = 0
    · simp [Resource.unref, Resource.hasUsageRef, Resource.notifyARefIsZero,
        Resource.hasAnyRefs, Resource.hasCommandBufferRef, h0, h1, h2]
    · simp [Resource.unref, Resource.hasUsageRef, Resource.notifyARefIsZero,
        Resource.hasAnyRefs, Resource.hasCommandBufferRef, h0, h1, h2]
  · simp [Resource.unref, Resource.hasUsageRef, h0, h1]

/-- Closed form of `unrefCommandBuffer` on a state with a positive
command-buffer count, mirror image of `unref_eq_of_pos`. -/
theorem unrefCommandBuffer_eq_of_pos (r : Resource)
    (h : 1 ≤ r.fCommandBufferRefCnt) :
    Resource.unrefCommandBuffer r =
      if r.fCommandBufferRefCnt = 1 ∧ r.fUsageRefCnt = 0 then
        some (Resource.internalDispose
          { r with fCommandBufferRefCnt := r.fCommandBufferRefCnt - 1 })
      else
        some { r with fCommandBufferRefCnt := r.fCommandBufferRefCnt - 1 } := by
  have h0 : r.fCommandBufferRefCnt ≠ 0 := by omega
  by_cases h1 : r.fCommandBufferRefCnt = 1
  · by_cases h2 : r.fUsageRefCnt = 0
    · simp [Resource.unrefCommandBuffer, Resource.hasUsageRef,
        Resource.notifyARefIsZero, Resource.hasAnyRefs,
        Resource.hasCommandBufferRef, h0, h1, h2]
    · simp [Resource.unrefCommandBuffer, Resource.hasUsageRef,
        Resource.notifyARefIsZero, Resource.hasAnyRefs,
        Resource.hasCommandBufferRef, h0, h1, h2]
  · simp [Resource.unrefCommandBuffer, Resource.hasCommandBufferRef, h0, h1]

/-- A list of release operations in which neither kind occurs is empty. -/
theorem releases_eq_nil_of_counts (l : List Op)
    (hops : ∀ op ∈ l, op = Op.opUnref ∨ op = Op.opUnrefCommandBuffer)
    (h1 : l.count Op.opUnref = 0) (h2 : l.count Op.opUnrefCommandBuffer = 0) :
    l = [] := by
  cases l with
  | nil => rfl
  | cons x xs =>
    rcases hops x (List.mem_cons_self x xs) with h | h <;> subst h <;>
      simp [List.count_cons] at h1 h2

/-- Running any interleaving of release operations whose multiplicities
match the two counters drives both counters to zero and runs
`internalDispose` exactly once, at the release that zeroes the second
counter. -/
theorem run_releases_aux (l : List Op) : ∀ r : Resource,
    (∀ op ∈ l, op = Op.opUnref ∨ op = Op.opUnrefCommandBuffer) →
    r.fUsageRefCnt = (l.count Op.opUnref : Int) →
    r.fCommandBufferRefCnt = (l.count Op.opUnrefCommandBuffer : Int) →
    l ≠ [] →
    Skgpu.run r l =
      some { r with fUsageRefCnt := 0, fCommandBufferRefCnt := 0,
                    fGpuPresent := false,
                    fFreeGpuDataCalls := r.fFreeGpuDataCalls + 1 } := by
  induction l with
  | nil => exact fun r _ _ _ hne => absurd rfl hne
  | cons op l ih =>
    intro r hops hu hc _
    rcases hops op (List.mem_cons_self op l) with hop | hop
    · subst hop
      rw [List.count_cons_self] at hu
      rw [List.count_cons_of_ne (by decide)] at hc
      push_cast at hu hc
      have hpos : 1 ≤ r.fUsageRefCnt := by omega
      have hstep : Skgpu.run r (Op.opUnref :: l) =
          match Resource.unref r with
          | none => none
          | some r1 => Skgpu.run r1 l := rfl
      rw [hstep, unref_eq_of_pos r hpos]
      by_cases hcase : r.fUsageRefCnt = 1 ∧ r.fCommandBufferRefCnt = 0
      · rw [if_pos hcase]
        have hl : l = [] := by
          refine releases_eq_nil_of_counts l
            (fun x hx => hops x (List.mem_cons_of_mem _ hx)) ?_ ?_ <;> omega
        subst hl
        obtain ⟨hu1, hc0⟩ := hcase
        simp only [Skgpu.run, Resource.internalDispose, hu1, hc0]
        norm_num
      · rw [if_neg hcase]
        have hlne : l ≠ [] := by
          intro hl
          subst hl
          simp only [List.count_nil] at hu hc
          exact hcase ⟨by omega, by omega⟩
        exact ih { r with fUsageRefCnt := r.fUsageRefCnt - 1 }
          (fun x hx => hops x (List.mem_cons_of_mem _ hx))
          (by simp; omega) (by simp; omega) hlne
    · subst hop
      rw [List.count_cons_self] at hc
      rw [List.count_cons_of_ne (by decide)] at hu
      push_cast at hu hc
      have hpos : 1 ≤ r.fCommandBufferRefCnt := by omega
      have hstep : Skgpu.run r (Op.opUnrefCommandBuffer :: l) =
          match Resource.unrefCommandBuffer r with
          | none => none
          | some r1 => Skgpu.run r1 l := rfl
      rw [hstep, unrefCommandBuffer_eq_of_pos r hpos]
      by_cases hcase : r.fCommandBufferRefCnt = 1 ∧ r.fUsageRefCnt = 0
      · rw [if_pos hcase]
        have hl : l = [] := by
          refine releases_eq_nil_of_counts l
            (fun x hx => hops x (List.mem_cons_of_mem _ hx)) ?_ ?_ <;> omega
        subst hl
        obtain ⟨hc1, hu0⟩ := hcase
        simp only [Skgpu.run, Resource.internalDispose, hc1, hu0]
        norm_num
      · rw [if_neg hcase]
        have hlne : l ≠ [] := by
          intro hl
          subst hl
          simp only [List.count_nil] at hu hc
          exact hcase ⟨by omega, by omega⟩
        exact ih { r with fCommandBufferRefCnt := r.fCommandBufferRefCnt - 1 }
          (fun x hx => hops x (List.mem_cons_of_mem _ hx))
          (by simp; omega) (by simp; omega) hlne

end Skgpu

namespace Skgpu

/-! ## Claim theorems -/

/-- C3: `isPurgeable()` returns true if and only if `usageCount == 0`,
for every entry state, and its value is independent of
`executorCount` (replacing the command-buffer count by any value leaves
it unchanged). -/
theorem isPurgeable_iff_usage_zero (r : Resource) :
    (Resource.isPurgeable r = true ↔ r.fUsageRefCnt = 0) ∧
    ∀ n : Int,
      Resource.isPurgeable { r with fCommandBufferRefCnt := n } =
        Resource.isPurgeable r := by
  constructor
  · simp [Resource.isPurgeable, Resource.hasUsageRef]
  · intro n
    simp [Resource.isPurgeable, Resource.hasUsageRef]

/-- C4: `ref()` (acquireUsage) on an entry with `usageCount == 0` fails
its `SkASSERT(hasUsageRef())` precondition (modelled as `none`); on an
entry with a nonzero usage count the assertion passes and the usage
count is incremented by exactly one, all other fields unchanged. -/
theorem ref_requires_existing_usage (r : Resource) :
    Resource.ref r =
      if r.fUsageRefCnt = 0 then none
      else some { r with fUsageRefCnt := r.fUsageRefCnt + 1 } := by
  rcases eq_or_ne r.fUsageRefCnt 0 with h | h <;>
    simp [Resource.ref, Resource.hasUsageRef, h]

/-- C6: `refCacheOnly()` only asserts `fUsageRefCnt >= 0`, so for every
entry with a nonnegative usage count it succeeds and increments the
usage count by exactly one; in particular at `usageCount = 0` it grants
the first usage reference, where the ordinary `ref()` would assert. -/
theorem refCacheOnly_grants_first_usage (r : Resource)
    (h : 0 ≤ r.fUsageRefCnt) :
    Resource.refCacheOnly r =
        some { r with fUsageRefCnt := r.fUsageRefCnt + 1 } ∧
    Resource.refCacheOnly { r with fUsageRefCnt := 0 } =
        some { r with fUsageRefCnt := 1 } ∧
    Resource.ref { r with fUsageRefCnt := 0 } = none := by
  refine ⟨?_, ?_, ?_⟩
  · simp [Resource.refCacheOnly, h]
  · simp [Resource.refCacheOnly]
  · simp [Resource.ref, Resource.hasUsageRef]

/-- Witness for C6 at a concrete freshly constructed entry. -/
theorem refCacheOnly_grants_first_usage_witness :
    Resource.refCacheOnly (Resource.mkResource 5) =
        some { Resource.mkResource 5 with
                 fUsageRefCnt := (Resource.mkResource 5).fUsageRefCnt + 1 } ∧
    Resource.refCacheOnly { Resource.mkResource 5 with fUsageRefCnt := 0 } =
        some { Resource.mkResource 5 with fUsageRefCnt := 1 } ∧
    Resource.ref { Resource.mkResource 5 with fUsageRefCnt := 0 } = none :=
  refCacheOnly_grants_first_usage (Resource.mkResource 5) (by decide)

/-- C7: `refCommandBuffer()` (acquireExecutor) carries no precondition
check at all — it is a plain relaxed increment that always succeeds
(it is total, so no assertion can fire), including when the
command-buffer count is zero — while `unrefCommandBuffer()`
(releaseExecutor) asserts `hasCommandBufferRef()`: it fails exactly
when the command-buffer count is zero. -/
theorem refCommandBuffer_unchecked_unref_checked (r : Resource) :
    (Resource.refCommandBuffer r).fCommandBufferRefCnt =
        r.fCommandBufferRefCnt + 1 ∧
    (Resource.unrefCommandBuffer r = none ↔ r.fCommandBufferRefCnt = 0) := by
  constructor
  · simp [Resource.refCommandBuffer]
  · rcases eq_or_ne r.fCommandBufferRefCnt 0 with h | h
    · simp [Resource.unrefCommandBuffer, Resource.hasCommandBufferRef, h]
    · simp only [Resource.unrefCommandBuffer, Resource.hasCommandBufferRef]
      simp [h]
      split
      · split <;> simp
      · simp

/-- C5: on an entry whose `fCalledRemovedFromCache` flag is still
false, `removedFromCache()` succeeds and sets the flag to true
(`SkDEBUGCODE(fCalledRemovedFromCache = true)`), and invoking
`removedFromCache()` a second time on the result fails the explicit
`SkASSERT(!fCalledRemovedFromCache)` check (modelled as `none`): the
flag transitions false to true at most once and the one-shot property
is enforced by an explicit check. -/
theorem removedFromCache_at_most_once (r : Resource)
    (h : r.fCalledRemovedFromCache = false) :
    (Resource.removedFromCache r).map Resource.fCalledRemovedFromCache =
        some true ∧
    (Resource.removedFromCache r).bind Resource.removedFromCache = none := by
  unfold Resource.removedFromCache
  simp only [h, Bool.false_eq_true, if_false]
  split
  · constructor
    · rfl
    · simp [Resource.internalDispose]
  · constructor
    · rfl
    · simp

/-- Witness for C5 at a concrete freshly constructed entry. -/
theorem removedFromCache_at_most_once_witness :
    (Resource.removedFromCache (Resource.mkResource 3)).map
        Resource.fCalledRemovedFromCache = some true ∧
    (Resource.removedFromCache (Resource.mkResource 3)).bind
        Resource.removedFromCache = none :=
  removedFromCache_at_most_once (Resource.mkResource 3) rfl

/-- C2: the sequential scenario.  Starting from a fresh entry: the
cache grants the first usage reference (`refCacheOnly`,
`usageCount = 1`), a client acquires (`ref`, `usageCount = 2`), an
executor acquires (`refCommandBuffer`, `executorCount = 1`); the client
releases (`usageCount = 1`, no teardown), the original usage holder
releases (`usageCount = 0`, still no teardown since
`executorCount = 1`, and the entry is now purgeable), and the executor
releases (`executorCount = 0`) — teardown fires at that final release,
exactly once (`fFreeGpuDataCalls = 1`). -/
theorem sequential_scenario_teardown_once :
    Skgpu.run (Resource.mkResource 0)
        [Op.opRefCacheOnly, Op.opRef, Op.opRefCommandBuffer, Op.opUnref] =
      some { fUsageRefCnt := 1, fCommandBufferRefCnt := 1
             fCalledRemovedFromCache := false, fGpuPresent := true
             fKey := 0, fCacheArrayIndex := 0, fTimestamp := 0
             fFreeGpuDataCalls := 0 } ∧
    Skgpu.run (Resource.mkResource 0)
        [Op.opRefCacheOnly, Op.opRef, Op.opRefCommandBuffer, Op.opUnref,
         Op.opUnref] =
      some { fUsageRefCnt := 0, fCommandBufferRefCnt := 1
             fCalledRemovedFromCache := false, fGpuPresent := true
             fKey := 0, fCacheArrayIndex := 0, fTimestamp := 0
             fFreeGpuDataCalls := 0 } ∧
    Resource.isPurgeable
      { fUsageRefCnt := 0, fCommandBufferRefCnt := 1
        fCalledRemovedFromCache := false, fGpuPresent := true
        fKey := 0, fCacheArrayIndex := 0, fTimestamp := 0
        fFreeGpuDataCalls := 0 } = true ∧
    Skgpu.run (Resource.mkResource 0)
        [Op.opRefCacheOnly, Op.opRef, Op.opRefCommandBuffer, Op.opUnref,
         Op.opUnref, Op.opUnrefCommandBuffer] =
      some { fUsageRefCnt := 0, fCommandBufferRefCnt := 0
             fCalledRemovedFromCache := false, fGpuPresent := false
             fKey := 0, fCacheArrayIndex := 0, fTimestamp := 0
             fFreeGpuDataCalls := 1 } := by
  decide

end Skgpu

namespace Skgpu

/-- One executed step keeps both counters nonnegative: every operation
that decrements a counter first asserts that it is nonzero. -/
theorem step_counters_nonneg (r r1 : Resource) (op : Op)
    (h : Skgpu.step r op = some r1)
    (hu : 0 ≤ r.fUsageRefCnt) (hc : 0 ≤ r.fCommandBufferRefCnt) :
    0 ≤ r1.fUsageRefCnt ∧ 0 ≤ r1.fCommandBufferRefCnt := by
  cases op
  case opRef =>
    rcases eq_or_ne r.fUsageRefCnt 0 with h0 | h0
    · simp [Skgpu.step, Resource.ref, Resource.hasUsageRef, h0] at h
    · simp only [Skgpu.step, Resource.ref] at h
      rw [if_pos (by simp [Resource.hasUsageRef, h0])] at h
      injection h with h
      subst h
      constructor <;> simp <;> omega
  case opUnref =>
    rcases eq_or_ne r.fUsageRefCnt 0 with h0 | h0
    · simp [Skgpu.step, Resource.unref, Resource.hasUsageRef, h0] at h
    · have hpos : 1 ≤ r.fUsageRefCnt := by omega
      simp only [Skgpu.step] at h
      rw [unref_eq_of_pos r hpos] at h
      by_cases hcase : r.fUsageRefCnt = 1 ∧ r.fCommandBufferRefCnt = 0
      · rw [if_pos hcase] at h
        injection h with h
        subst h
        simp [Resource.internalDispose]
        omega
      · rw [if_neg hcase] at h
        injection h with h
        subst h
        simp
        omega
  case opRefCommandBuffer =>
    simp only [Skgpu.step, Resource.refCommandBuffer] at h
    injection h with h
    subst h
    constructor <;> simp <;> omega
  case opUnrefCommandBuffer =>
    rcases eq_or_ne r.fCommandBufferRefCnt 0 with h0 | h0
    · simp [Skgpu.step, Resource.unrefCommandBuffer,
        Resource.hasCommandBufferRef, h0] at h
    · have hpos : 1 ≤ r.fCommandBufferRefCnt := by omega
      simp only [Skgpu.step] at h
      rw [unrefCommandBuffer_eq_of_pos r hpos] at h
      by_cases hcase : r.fCommandBufferRefCnt = 1 ∧ r.fUsageRefCnt = 0
      · rw [if_pos hcase] at h
        injection h with h
        subst h
        simp [Resource.internalDispose]
        omega
      · rw [if_neg hcase] at h
        injection h with h
        subst h
        simp
        omega
  case opRefCacheOnly =>
    simp only [Skgpu.step, Resource.refCacheOnly] at h
    rw [if_pos hu] at h
    injection h with h
    subst h
    constructor <;> simp <;> omega
  case opRemovedFromCache =>
    simp only [Skgpu.step, Resource.removedFromCache] at h
    by_cases hflag : r.fCalledRemovedFromCache = true
    · rw [if_pos hflag] at h
      exact Option.noConfusion h
    · rw [if_neg hflag] at h
      by_cases hnot : Resource.notifyARefIsZero
          { r with fCalledRemovedFromCache := true } LastRemovedRef.kCache = true
      · rw [if_pos hnot] at h
        injection h with h
        subst h
        simp [Resource.internalDispose]
        omega
      · rw [if_neg hnot] at h
        injection h with h
        subst h
        simp
        omega

/-- Every executed run keeps both counters nonnegative. -/
theorem run_counters_nonneg (l : List Op) : ∀ r r2 : Resource,
    Skgpu.run r l = some r2 →
    0 ≤ r.fUsageRefCnt → 0 ≤ r.fCommandBufferRefCnt →
    0 ≤ r2.fUsageRefCnt ∧ 0 ≤ r2.fCommandBufferRefCnt := by
  induction l with
  | nil =>
    intro r r2 h hu hc
    simp only [Skgpu.run] at h
    injection h with h
    subst h
    exact ⟨hu, hc⟩
  | cons op l ih =>
    intro r r2 h hu hc
    simp only [Skgpu.run] at h
    cases hstep : Skgpu.step r op with
    | none => rw [hstep] at h; exact Option.noConfusion h
    | some r1 =>
      rw [hstep] at h
      obtain ⟨h1, h2⟩ := step_counters_nonneg r r1 op hstep hu hc
      exact ih r1 r2 h h1 h2

/-- No executed step writes `fKey`, `fCacheArrayIndex` or `fTimestamp`:
only the cache-side accessors (`setKey`, `accessCacheIndex`,
`setTimestamp`) touch them. -/
theorem step_preserves_cache_fields (r r1 : Resource) (op : Op)
    (h : Skgpu.step r op = some r1) :
    r1.fKey = r.fKey ∧ r1.fCacheArrayIndex = r.fCacheArrayIndex ∧
      r1.fTimestamp = r.fTimestamp := by
  cases op
  all_goals
    simp only [Skgpu.step, Resource.ref, Resource.unref,
      Resource.refCommandBuffer, Resource.unrefCommandBuffer,
      Resource.refCacheOnly, Resource.removedFromCache] at h
  all_goals try (split at h)
  all_goals try (split at h)
  all_goals try (split at h)
  all_goals
    first
      | exact Option.noConfusion h
      | (injection h with h; subst h; simp [Resource.internalDispose])

/-- No executed run writes `fKey`. -/
theorem run_preserves_key (l : List Op) : ∀ r r1 : Resource,
    Skgpu.run r l = some r1 → r1.fKey = r.fKey := by
  induction l with
  | nil =>
    intro r r1 h
    simp only [Skgpu.run] at h
    injection h with h
    subst h
    rfl
  | cons op l ih =>
    intro r r1 h
    simp only [Skgpu.run] at h
    cases hstep : Skgpu.step r op with
    | none => rw [hstep] at h; exact Option.noConfusion h
    | some rmid =>
      rw [hstep] at h
      rw [ih rmid r1 h, (step_preserves_cache_fields r rmid op hstep).1]
end Skgpu

namespace Skgpu

/-- C1: for any interleaving of concurrent `unref` (releaseUsage) and
`unrefCommandBuffer` (releaseExecutor) calls that drive both counters
to zero — the multiplicity of each release in the interleaving matches
its counter's start value and at least one release occurs — the whole
run executes without a failed assertion, both counters end at zero, and
the native-release callback (`internalDispose` / `freeGpuData`) fires
exactly once, never zero times and never twice.  Only a call designated
responsible by the locked `notifyARefIsZero` arbitration runs
`internalDispose` (one `fFreeGpuDataCalls` increment per designated
call), so exactly one of the racing release calls was designated
responsible for teardown. -/
theorem racing_releases_dispose_exactly_once (l : List Op) (r : Resource)
    (hops : ∀ op ∈ l, op = Op.opUnref ∨ op = Op.opUnrefCommandBuffer)
    (hu : r.fUsageRefCnt = (l.count Op.opUnref : Int))
    (hc : r.fCommandBufferRefCnt = (l.count Op.opUnrefCommandBuffer : Int))
    (hne : l ≠ [])
    (hfree : r.fFreeGpuDataCalls = 0) :
    (Skgpu.run r l).map Resource.fFreeGpuDataCalls = some 1 ∧
    (Skgpu.run r l).map Resource.fUsageRefCnt = some 0 ∧
    (Skgpu.run r l).map Resource.fCommandBufferRefCnt = some 0 := by
  rw [run_releases_aux l r hops hu hc hne]
  simp [hfree]

/-- Witness for C1: two racing releases from
`usageCount = 1, executorCount = 1` (spec scenario 7). -/
theorem racing_releases_dispose_exactly_once_witness :
    (Skgpu.run
        { fUsageRefCnt := 1, fCommandBufferRefCnt := 1
          fCalledRemovedFromCache := false, fGpuPresent := true
          fKey := 0, fCacheArrayIndex := 0, fTimestamp := 0
          fFreeGpuDataCalls := 0 }
        [Op.opUnref, Op.opUnrefCommandBuffer]).map
      Resource.fFreeGpuDataCalls = some 1 ∧
    (Skgpu.run
        { fUsageRefCnt := 1, fCommandBufferRefCnt := 1
          fCalledRemovedFromCache := false, fGpuPresent := true
          fKey := 0, fCacheArrayIndex := 0, fTimestamp := 0
          fFreeGpuDataCalls := 0 }
        [Op.opUnref, Op.opUnrefCommandBuffer]).map
      Resource.fUsageRefCnt = some 0 ∧
    (Skgpu.run
        { fUsageRefCnt := 1, fCommandBufferRefCnt := 1
          fCalledRemovedFromCache := false, fGpuPresent := true
          fKey := 0, fCacheArrayIndex := 0, fTimestamp := 0
          fFreeGpuDataCalls := 0 }
        [Op.opUnref, Op.opUnrefCommandBuffer]).map
      Resource.fCommandBufferRefCnt = some 0 :=
  racing_releases_dispose_exactly_once
    [Op.opUnref, Op.opUnrefCommandBuffer] _
    (by decide) (by decide) (by decide) (by decide) (by decide)

/-- C8: in every state reachable by an executed sequence of operations
from a state with nonnegative counters, `usageCount ≥ 0` and
`executorCount ≥ 0` hold — both at the intermediate state reached after
any first portion of the sequence and at the final state — so no
operation ever drives either counter negative: each decrement is
guarded by the assertion that its counter is nonzero, which every
sequence whose releases are matched by earlier acquires satisfies. -/
theorem counters_never_negative (r r1 r2 : Resource) (l1 l2 : List Op)
    (hu : 0 ≤ r.fUsageRefCnt) (hc : 0 ≤ r.fCommandBufferRefCnt)
    (h1 : Skgpu.run r l1 = some r1) (h2 : Skgpu.run r1 l2 = some r2) :
    (0 ≤ r1.fUsageRefCnt ∧ 0 ≤ r1.fCommandBufferRefCnt) ∧
    (0 ≤ r2.fUsageRefCnt ∧ 0 ≤ r2.fCommandBufferRefCnt) := by
  obtain ⟨a, b⟩ := run_counters_nonneg l1 r r1 h1 hu hc
  exact ⟨⟨a, b⟩, run_counters_nonneg l2 r1 r2 h2 a b⟩

/-- Witness for C8 along a concrete executed sequence: acquire a usage
and an executor reference, then release everything. -/
theorem counters_never_negative_witness :
    ((0:Int) ≤ ({ fUsageRefCnt := 2, fCommandBufferRefCnt := 1
                  fCalledRemovedFromCache := false, fGpuPresent := true
                  fKey := 0, fCacheArrayIndex := 0, fTimestamp := 0
                  fFreeGpuDataCalls := 0 } : Resource).fUsageRefCnt ∧
     (0:Int) ≤ ({ fUsageRefCnt := 2, fCommandBufferRefCnt := 1
                  fCalledRemovedFromCache := false, fGpuPresent := true
                  fKey := 0, fCacheArrayIndex := 0, fTimestamp := 0
                  fFreeGpuDataCalls := 0 } : Resource).fCommandBufferRefCnt) ∧
    ((0:Int) ≤ ({ fUsageRefCnt := 0, fCommandBufferRefCnt := 0
                  fCalledRemovedFromCache := false, fGpuPresent := false
                  fKey := 0, fCacheArrayIndex := 0, fTimestamp := 0
                  fFreeGpuDataCalls := 1 } : Resource).fUsageRefCnt ∧
     (0:Int) ≤ ({ fUsageRefCnt := 0, fCommandBufferRefCnt := 0
                  fCalledRemovedFromCache := false, fGpuPresent := false
                  fKey := 0, fCacheArrayIndex := 0, fTimestamp := 0
                  fFreeGpuDataCalls := 1 } : Resource).fCommandBufferRefCnt) :=
  counters_never_negative
    { fUsageRefCnt := 1, fCommandBufferRefCnt := 0
      fCalledRemovedFromCache := false, fGpuPresent := true
      fKey := 0, fCacheArrayIndex := 0, fTimestamp := 0
      fFreeGpuDataCalls := 0 }
    { fUsageRefCnt := 2, fCommandBufferRefCnt := 1
      fCalledRemovedFromCache := false, fGpuPresent := true
      fKey := 0, fCacheArrayIndex := 0, fTimestamp := 0
      fFreeGpuDataCalls := 0 }
    { fUsageRefCnt := 0, fCommandBufferRefCnt := 0
      fCalledRemovedFromCache := false, fGpuPresent := false
      fKey := 0, fCacheArrayIndex := 0, fTimestamp := 0
      fFreeGpuDataCalls := 1 }
    [Op.opRef, Op.opRefCommandBuffer]
    [Op.opUnref, Op.opUnref, Op.opUnrefCommandBuffer]
    (by decide) (by decide) (by decide) (by decide)

/-- C9: none of the four acquire/release operations (`ref`, `unref`,
`refCommandBuffer`, `unrefCommandBuffer`) writes the entry's
`fCacheArrayIndex` or `fTimestamp`: after any executed such step both
fields equal their values before it.  The cache, by contrast, does
mutate them, through the pointer returned by `accessCacheIndex` and
through `setTimestamp`. -/
theorem acquire_release_preserve_cache_fields (r r1 : Resource) (op : Op)
    (i : Int) (ts : Nat)
    (_hop : op = Op.opRef ∨ op = Op.opUnref ∨ op = Op.opRefCommandBuffer ∨
      op = Op.opUnrefCommandBuffer)
    (h : Skgpu.step r op = some r1) :
    r1.fCacheArrayIndex = r.fCacheArrayIndex ∧
    r1.fTimestamp = r.fTimestamp ∧
    (Resource.setCacheIndex r i).fCacheArrayIndex = i ∧
    (Resource.setTimestamp r ts).fTimestamp = ts := by
  have hp := step_preserves_cache_fields r r1 op h
  exact ⟨hp.2.1, hp.2.2, rfl, rfl⟩

/-- Witness for C9: a concrete `unref` step — the one that triggers
disposal, which still leaves the cache bookkeeping fields alone. -/
theorem acquire_release_preserve_cache_fields_witness :
    ({ fUsageRefCnt := 0, fCommandBufferRefCnt := 0
       fCalledRemovedFromCache := false, fGpuPresent := false
       fKey := 4, fCacheArrayIndex := 7, fTimestamp := 9
       fFreeGpuDataCalls := 1 } : Resource).fCacheArrayIndex =
      ({ fUsageRefCnt := 1, fCommandBufferRefCnt := 0
         fCalledRemovedFromCache := false, fGpuPresent := true
         fKey := 4, fCacheArrayIndex := 7, fTimestamp := 9
         fFreeGpuDataCalls := 0 } : Resource).fCacheArrayIndex ∧
    ({ fUsageRefCnt := 0, fCommandBufferRefCnt := 0
       fCalledRemovedFromCache := false, fGpuPresent := false
       fKey := 4, fCacheArrayIndex := 7, fTimestamp := 9
       fFreeGpuDataCalls := 1 } : Resource).fTimestamp =
      ({ fUsageRefCnt := 1, fCommandBufferRefCnt := 0
         fCalledRemovedFromCache := false, fGpuPresent := true
         fKey := 4, fCacheArrayIndex := 7, fTimestamp := 9
         fFreeGpuDataCalls := 0 } : Resource).fTimestamp ∧
    (Resource.setCacheIndex
      { fUsageRefCnt := 1, fCommandBufferRefCnt := 0
        fCalledRemovedFromCache := false, fGpuPresent := true
        fKey := 4, fCacheArrayIndex := 7, fTimestamp := 9
        fFreeGpuDataCalls := 0 } 11).fCacheArrayIndex = 11 ∧
    (Resource.setTimestamp
      { fUsageRefCnt := 1, fCommandBufferRefCnt := 0
        fCalledRemovedFromCache := false, fGpuPresent := true
        fKey := 4, fCacheArrayIndex := 7, fTimestamp := 9
        fFreeGpuDataCalls := 0 } 13).fTimestamp = 13 :=
  acquire_release_preserve_cache_fields
    { fUsageRefCnt := 1, fCommandBufferRefCnt := 0
      fCalledRemovedFromCache := false, fGpuPresent := true
      fKey := 4, fCacheArrayIndex := 7, fTimestamp := 9
      fFreeGpuDataCalls := 0 }
    { fUsageRefCnt := 0, fCommandBufferRefCnt := 0
      fCalledRemovedFromCache := false, fGpuPresent := false
      fKey := 4, fCacheArrayIndex := 7, fTimestamp := 9
      fFreeGpuDataCalls := 1 }
    Op.opUnref 11 13
    (Or.inr (Or.inl rfl)) (by decide)

/-- C10: once `setKey(k)` has assigned the key, `key()` returns `k`,
and `key()` still returns `k` after any executed sequence of
reference-lifecycle operations: no entry-side operation writes `fKey`,
so after its one-time assignment the key is immutable from the entry's
perspective. -/
theorem setKey_then_key_immutable (r r1 : Resource) (k : Nat) (l : List Op)
    (h : Skgpu.run (Resource.setKey r k) l = some r1) :
    Resource.key (Resource.setKey r k) = k ∧ Resource.key r1 = k := by
  refine ⟨rfl, ?_⟩
  rw [Resource.key, run_preserves_key l _ r1 h]
  rfl

/-- Witness for C10: set the key on a fresh entry, then run a sequence
ending in disposal; `key()` still returns the assigned key. -/
theorem setKey_then_key_immutable_witness :
    Resource.key (Resource.setKey (Resource.mkResource 0) 42) = 42 ∧
    Resource.key
      { fUsageRefCnt := 0, fCommandBufferRefCnt := 0
        fCalledRemovedFromCache := false, fGpuPresent := false
        fKey := 42, fCacheArrayIndex := 0, fTimestamp := 0
        fFreeGpuDataCalls := 1 } = 42 :=
  setKey_then_key_immutable (Resource.mkResource 0) _ 42
    [Op.opRefCacheOnly, Op.opUnref] (by decide)

end Skgpu
